import Mathlib

/-!
Shallow embedding of the testec2 repository: the connectivity diagnostic
pipeline (`diagnose.js`), the express gateway handlers (the server file),
and the string-matching error-classification layer both of them share.

Remote calls (DNS resolution, the raw HTTP probe, `client.info()`,
`indices.exists`, `search`, Firehose `PutRecord`) are modelled by passing
their outcomes in explicitly; everything the repository computes from those
outcomes is translated directly from the JavaScript source.
-/

namespace Testec2

/-! ### JS string containment (`String.prototype.includes`) -/

/-- Helper for `includes`: `pat` is a prefix of `cs` (on character lists). -/
def strStartsWith : List Char → List Char → Bool
  | [], _ => true
  | _ :: _, [] => false
  | p :: ps, c :: cs => p == c && strStartsWith ps cs

/-- Helper for `includes`: `pat` occurs contiguously inside `cs`. -/
def strFind : List Char → List Char → Bool
  | pat, [] => strStartsWith pat []
  | pat, c :: cs => strStartsWith pat (c :: cs) || strFind pat cs

/-- JS `s.includes pat`, the only string test the repository uses on error
messages. -/
def includes (s pat : String) : Bool :=
  strFind pat.toList s.toList

/-! ### Fault categories (spec section 3) -/

/-- The fault taxonomy of the spec. The source never names these; each one
stands for one of the suggestion branches / troubleshooting flags the code
derives from an error message. -/
inductive FaultCategory where
  | Unconfigured
  | DnsFailure
  | NetworkUnreachable
  | TimedOut
  | AuthenticationFailure
  | AuthorizationFailure
  | ResourceNotFound
  | Unknown
deriving DecidableEq, Repr

/-- The error-classification cascade of `testOpenSearchClient`
(diagnose.js lines 132-138): cascading `includes` checks in source order
`timeout`, `403`, `ENOTFOUND`; the branch reached determines the suggestion
printed, i.e. the fault category assigned to the raw failure. The `403`
branch prints the IAM-permissions suggestion, i.e. `AuthorizationFailure`;
a message matching no branch gets no suggestion, i.e. `Unknown`. -/
def classify (msg : String) : FaultCategory :=
  if includes msg "timeout" then .TimedOut
  else if includes msg "403" then .AuthorizationFailure
  else if includes msg "ENOTFOUND" then .DnsFailure
  else .Unknown

/-- A raw failure as the spec describes it: message plus optional status. -/
structure RawError where
  message : String
  statusCode : Option Nat
deriving DecidableEq, Repr

/-- Modelled from the spec: the ordered rule table of spec section 4.1
(DNS marker, connection refused, timeout, 403/authorization with a
credential sub-signal, 404/missing resource, else Unknown). The concrete
marker strings are the upstream error vocabulary the repository matches on
(`ENOTFOUND`, `ECONNREFUSED`, `timeout`, `Forbidden`, `Not Found`,
`index_not_found_exception`). This definition follows the spec words and is
compared against the handlers translated from the source. -/
def classifySpec (e : RawError) : FaultCategory :=
  if includes e.message "ENOTFOUND" then .DnsFailure
  else if includes e.message "ECONNREFUSED" then .NetworkUnreachable
  else if includes e.message "timeout" || includes e.message "Request timed out" then .TimedOut
  else if e.statusCode == some 403 || includes e.message "Forbidden" then
    (if includes e.message "security token" || includes e.message "signature" then
        .AuthenticationFailure
     else .AuthorizationFailure)
  else if e.statusCode == some 404 || includes e.message "Not Found"
      || includes e.message "index_not_found_exception" then .ResourceNotFound
  else .Unknown

/-! ### Diagnostic pipeline (diagnose.js) -/

/-- The five stages of the diagnostic run, in the order `runDiagnostics`
performs them. -/
inductive Stage where
  | config
  | dnsStage
  | transport
  | handshake
  | resource
deriving DecidableEq, Repr

/-- Outcome recorded for one stage. -/
inductive StageOutcome where
  | success
  | failure (category : FaultCategory)
deriving DecidableEq, Repr

/-- One per-stage record of the diagnostic report. -/
structure Finding where
  stage : Stage
  outcome : StageOutcome
deriving DecidableEq, Repr

/-- The environment variables `runDiagnostics` reads. -/
structure Env where
  OPENSEARCH_ENDPOINT : Option String
  AWS_ACCESS_KEY_ID : Option String
  AWS_SECRET_ACCESS_KEY : Option String
  AWS_REGION : Option String
  OPENSEARCH_INDEX : Option String

/-- What the raw HTTP(S) probe of `testBasicConnectivity` observes: a
response (with its status code), the 10s timer firing, or a socket-level
error event. -/
inductive TransportEvent where
  | response (statusCode : Nat)
  | timeout
  | connError (message : String)
deriving DecidableEq, Repr

/-- Outcomes of the remote calls a diagnostic run performs, passed in
explicitly: `dns.resolve4`, the raw probe, `client.info()` and
`indices.exists`. -/
structure World where
  dnsResult : Except String (List String)
  transportEvent : TransportEvent
  infoResult : Except String Unit
  existsResult : Except String Bool

/-- The probe timeout `testBasicConnectivity` sets, in milliseconds
(both in the request `options` and via `req.setTimeout`). -/
def transportTimeoutMs : Nat := 10000

/-- `testBasicConnectivity` (diagnose.js lines 65-98): any response at all
prints SUCCESS (the status code is only displayed); the timer event prints
TIMEOUT and a socket error prints FAILED. The promise resolves in every
branch, so the caller continues regardless. The socket-error branch is a
connection-level failure, recorded as `NetworkUnreachable`. -/
def testBasicConnectivity (e : TransportEvent) : Finding :=
  match e with
  | .response _ => { stage := .transport, outcome := .success }
  | .timeout => { stage := .transport, outcome := .failure .TimedOut }
  | .connError _ => { stage := .transport, outcome := .failure .NetworkUnreachable }

/-- `testOpenSearchClient` (diagnose.js lines 100-142): `client.info()`
succeeding prints SUCCESS; a raised error is caught, its message run
through the suggestion cascade (`classify`), and `null` is returned —
the error never propagates to `runDiagnostics`. -/
def testOpenSearchClient (r : Except String Unit) : Finding :=
  match r with
  | .ok _ => { stage := .handshake, outcome := .success }
  | .error m => { stage := .handshake, outcome := .failure (classify m) }

/-- `testIndexExists` (diagnose.js lines 144-181): `indices.exists`
succeeding (either boolean) prints the existence result; a raised error is
caught and printed with no suggestion cascade, i.e. no classification. -/
def testIndexExists (r : Except String Bool) : Finding :=
  match r with
  | .ok _ => { stage := .resource, outcome := .success }
  | .error _ => { stage := .resource, outcome := .failure .Unknown }

/-- `runDiagnostics` (diagnose.js lines 16-63): prints the environment,
returns early when `OPENSEARCH_ENDPOINT` is unset (the only configuration
check that blocks), returns early when `dns.resolve4` rejects, and then
runs the transport probe, the client test and the index test one after the
other — those three helpers swallow their own failures, so nothing after
the DNS test ever stops the sequence. -/
def runDiagnostics (env : Env) (w : World) : List Finding :=
  match env.OPENSEARCH_ENDPOINT with
  | none => [{ stage := .config, outcome := .failure .Unconfigured }]
  | some _ =>
    match w.dnsResult with
    | .error _ =>
        [{ stage := .config, outcome := .success },
         { stage := .dnsStage, outcome := .failure .DnsFailure }]
    | .ok _ =>
        [{ stage := .config, outcome := .success },
         { stage := .dnsStage, outcome := .success },
         testBasicConnectivity w.transportEvent,
         testOpenSearchClient w.infoResult,
         testIndexExists w.existsResult]

/-- The stages a run actually executes, in order. -/
def executedStages (env : Env) (w : World) : List Stage :=
  (runDiagnostics env w).map Finding.stage

/-! ### Gateway handlers (the express server file) -/

/-- JSON-ish values carried by request/response bodies. -/
inductive JVal where
  | str (s : String)
  | num (n : Int)
  | bool (b : Bool)
  | null
deriving DecidableEq, Repr

/-- A JS object, extensionally: which value (if any) each key maps to. -/
def JsObj : Type := String → Option JVal

/-- JS spread-then-assign: the object literal that copies `o` and then sets
key `k` to `v` (a later literal key overrides a spread-in key). -/
def jsSet (o : JsObj) (k : String) (v : JVal) : JsObj :=
  fun k2 => if k2 = k then some v else o k2

/-- The record built by POST /send and POST /send-pipe-data: spread of the
body, then `timestamp` and `@timestamp` set to two `toISOString` calls
(`now1`, `now2`). -/
def buildRecord (data : JsObj) (now1 now2 : String) : JsObj :=
  jsSet (jsSet data "timestamp" (.str now1)) "@timestamp" (.str now2)

/-- The fallback body of POST /send-pipe-data (`req.body` falsy). -/
def defaultPipeData : JsObj :=
  fun k => if k = "pipe-20" then some (.num 112) else none

/-- POST /send-pipe-data builds its record from `req.body` when that is
truthy and from the literal default otherwise. -/
def sendPipeDataRecord (body : Option JsObj) (now1 now2 : String) : JsObj :=
  buildRecord (match body with | some b => b | none => defaultPipeData) now1 now2

/-- The troubleshooting flags the GET /test-connection error body computes,
each an independent substring test on the error message. -/
structure TestConnTroubleshooting where
  networkIssue : Bool
  authIssue : Bool
  configIssue : Bool
deriving DecidableEq, Repr

/-- GET /test-connection troubleshooting object (server lines 107-111). -/
def testConnectionTroubleshooting (msg : String) : TestConnTroubleshooting :=
  { networkIssue := includes msg "timeout" || includes msg "ENOTFOUND"
    authIssue := includes msg "403" || includes msg "Forbidden"
    configIssue := includes msg "404" || includes msg "Not Found" }

/-- The troubleshooting flags the GET /search/real-opensearch error body
computes, each an independent substring test on the error message. -/
structure SearchTroubleshooting where
  timeoutIssue : Bool
  networkIssue : Bool
  authIssue : Bool
  indexIssue : Bool
deriving DecidableEq, Repr

/-- GET /search/real-opensearch troubleshooting object (server
lines 344-349). -/
def realOpensearchTroubleshooting (msg : String) : SearchTroubleshooting :=
  { timeoutIssue := includes msg "timeout" || includes msg "Request timed out"
    networkIssue := includes msg "ENOTFOUND" || includes msg "ECONNREFUSED"
    authIssue := includes msg "403" || includes msg "Forbidden"
    indexIssue := includes msg "404" || includes msg "index_not_found_exception" }

/-- The parts of a gateway JSON response the claims are about: HTTP status,
the `success` flag when the body has one (`none` when the body omits it),
and the optional `status`, `error`, `suggestion` and `troubleshooting`
body fields. -/
structure GatewayResponse where
  status : Nat
  success : Option Bool
  statusField : Option String := none
  error : Option String := none
  suggestion : Option String := none
  tcTroubleshooting : Option TestConnTroubleshooting := none
  searchTroubleshooting : Option SearchTroubleshooting := none
deriving DecidableEq, Repr

/-- True on the `ok` arm of an `Except`. -/
def exceptOk : Except String α → Bool
  | .ok _ => true
  | .error _ => false

/-- GET /health (server lines 61-72): a fixed 200 body whose only status
indicator is the `status: healthy` field — the body has no `success` key. -/
def healthHandler : GatewayResponse :=
  { status := 200, success := none, statusField := some "healthy" }

/-- GET /test-connection (server lines 75-115): `info()` succeeding gives a
200 body with `success: true`; a caught error gives a 500 body with
`success: false`, the message, and the troubleshooting flags. -/
def testConnectionHandler (r : Except String Unit) : GatewayResponse :=
  match r with
  | .ok _ => { status := 200, success := some true }
  | .error m =>
      { status := 500, success := some false, error := some m,
        tcTroubleshooting := some (testConnectionTroubleshooting m) }

/-- POST /send (server lines 118-155): Firehose `PutRecord` succeeding
gives 200 `success: true`; a caught error gives 500 `success: false`. -/
def sendHandler (r : Except String String) : GatewayResponse :=
  match r with
  | .ok _ => { status := 200, success := some true }
  | .error m => { status := 500, success := some false, error := some m }

/-- POST /send-pipe-data (server lines 158-196): same response shape as
POST /send. -/
def sendPipeDataHandler (r : Except String String) : GatewayResponse :=
  match r with
  | .ok _ => { status := 200, success := some true }
  | .error m => { status := 500, success := some false, error := some m }

/-- GET /search/all (server lines 199-235): search succeeding gives 200
`success: true`; a caught error gives 500 `success: false` with the raw
message and no troubleshooting object. -/
def searchAllHandler (r : Except String Unit) : GatewayResponse :=
  match r with
  | .ok _ => { status := 200, success := some true }
  | .error m => { status := 500, success := some false, error := some m }

/-- GET /search/pipe-data (server lines 238-272): same response shape as
GET /search/all. -/
def searchPipeDataHandler (r : Except String Unit) : GatewayResponse :=
  match r with
  | .ok _ => { status := 200, success := some true }
  | .error m => { status := 500, success := some false, error := some m }

/-- GET /search/real-opensearch (server lines 275-353), given the index
name and the outcomes of `indices.exists` and of `search`. Returns the
response together with a flag recording whether the search call was issued
(the source only reaches `opensearchClient.search` after `indexExists.body`
is truthy). A missing index returns 404 with a suggestion; any caught error
returns 500 with the prefixed message and the troubleshooting flags. In the
source the 404 error text wraps the index name in single quotes. -/
def realOpensearchHandler (indexName : String) (er : Except String Bool)
    (sr : Except String Unit) : GatewayResponse × Bool :=
  match er with
  | .error m =>
      ({ status := 500, success := some false,
         error := some ("Failed to query real OpenSearch: " ++ m),
         searchTroubleshooting := some (realOpensearchTroubleshooting m) }, false)
  | .ok false =>
      ({ status := 404, success := some false,
         error := some ("Index " ++ indexName ++ " does not exist"),
         suggestion := some
           "Check your OPENSEARCH_INDEX environment variable or create the index first" },
       false)
  | .ok true =>
      match sr with
      | .ok _ => ({ status := 200, success := some true }, true)
      | .error m =>
          ({ status := 500, success := some false,
             error := some ("Failed to query real OpenSearch: " ++ m),
             searchTroubleshooting := some (realOpensearchTroubleshooting m) }, true)

/-! ### JS `parseInt` and the size/from query parameters -/

/-- The whitespace `parseInt` skips before parsing. -/
def isJsWhitespace (c : Char) : Bool :=
  c == ' ' || c == '\t' || c == '\n' || c == '\r'

/-- Decimal digit value, if any. -/
def digitVal (c : Char) : Option Nat :=
  if '0' ≤ c ∧ c ≤ '9' then some (c.toNat - '0'.toNat) else none

/-- Hexadecimal digit value, if any. -/
def hexDigitVal (c : Char) : Option Nat :=
  if '0' ≤ c ∧ c ≤ '9' then some (c.toNat - '0'.toNat)
  else if 'a' ≤ c ∧ c ≤ 'f' then some (c.toNat - 'a'.toNat + 10)
  else if 'A' ≤ c ∧ c ≤ 'F' then some (c.toNat - 'A'.toNat + 10)
  else none

/-- Longest prefix of digit values under the given digit reader. -/
def takeDigits (dv : Char → Option Nat) : List Char → List Nat
  | [] => []
  | c :: cs =>
    match dv c with
    | some d => d :: takeDigits dv cs
    | none => []

/-- Digit list to number in the given base. -/
def digitsToNat (base : Nat) (ds : List Nat) : Nat :=
  ds.foldl (fun a d => a * base + d) 0

/-- JS `parseInt s` with no radix argument: skip whitespace, optional
sign, `0x` prefix selects base 16, then the longest digit prefix; `none`
models NaN (no digit consumed). -/
def parseIntJS (s : String) : Option Int :=
  let cs0 := s.toList.dropWhile isJsWhitespace
  let signed : Bool × List Char :=
    match cs0 with
    | '-' :: rest => (true, rest)
    | '+' :: rest => (false, rest)
    | _ => (false, cs0)
  let based : Nat × List Char :=
    match signed.2 with
    | '0' :: 'x' :: rest => (16, rest)
    | '0' :: 'X' :: rest => (16, rest)
    | _ => (10, signed.2)
  let dv := if based.1 == 16 then hexDigitVal else digitVal
  let ds := takeDigits dv based.2
  if ds.isEmpty then none
  else
    let n : Int := Int.ofNat (digitsToNat based.1 ds)
    some (if signed.1 then -n else n)

/-- The effective `size` of the search routes: `parseInt(req.query.size)
|| 10` — an absent parameter, a NaN parse, or a parse of 0 all fall back
to 10. -/
def sizeParam (q : Option String) : Int :=
  match q with
  | none => 10
  | some s =>
    match parseIntJS s with
    | none => 10
    | some n => if n = 0 then 10 else n

/-- The effective `from` of the search routes: `parseInt(req.query.from)
|| 0` — an absent parameter, a NaN parse, or a parse of 0 all fall back
to 0. -/
def fromParam (q : Option String) : Int :=
  match q with
  | none => 0
  | some s =>
    match parseIntJS s with
    | none => 0
    | some n => if n = 0 then 0 else n

/-! ### Concrete fixtures for counterexamples and witnesses -/

/-- A fully configured environment. -/
def envFull : Env :=
  { OPENSEARCH_ENDPOINT := some "https://search-mydomain.us-east-1.es.amazonaws.com",
    AWS_ACCESS_KEY_ID := some "AKIAEXAMPLE",
    AWS_SECRET_ACCESS_KEY := some "secretExample",
    AWS_REGION := some "us-east-1",
    OPENSEARCH_INDEX := some "mydomain" }

/-- Endpoint set, credential variables unset. -/
def envNoCreds : Env :=
  { OPENSEARCH_ENDPOINT := some "https://search-mydomain.us-east-1.es.amazonaws.com",
    AWS_ACCESS_KEY_ID := none,
    AWS_SECRET_ACCESS_KEY := none,
    AWS_REGION := some "us-east-1",
    OPENSEARCH_INDEX := some "mydomain" }

/-- Endpoint unset. -/
def envNoEndpoint : Env :=
  { OPENSEARCH_ENDPOINT := none,
    AWS_ACCESS_KEY_ID := some "AKIAEXAMPLE",
    AWS_SECRET_ACCESS_KEY := some "secretExample",
    AWS_REGION := none,
    OPENSEARCH_INDEX := none }

/-- Every remote call succeeds. -/
def worldAllOk : World :=
  { dnsResult := .ok ["10.0.0.2"], transportEvent := .response 403,
    infoResult := .ok (), existsResult := .ok true }

/-- DNS and the raw probe succeed; the authenticated handshake raises a
403 error. -/
def worldHandshake403 : World :=
  { dnsResult := .ok ["10.0.0.2"], transportEvent := .response 200,
    infoResult := .error "Response Error: 403 security token invalid",
    existsResult := .ok true }

/-- DNS succeeds; the raw probe times out; the later calls succeed. -/
def worldTransportTimeout : World :=
  { dnsResult := .ok ["10.0.0.2"], transportEvent := .timeout,
    infoResult := .ok (), existsResult := .ok true }

/-! ## Theorems -/

/-! ### Shared helper lemmas -/

/-- The transport probe always records the transport stage. -/
theorem testBasicConnectivity_stage (e : TransportEvent) :
    (testBasicConnectivity e).stage = .transport := by
  cases e <;> rfl

/-- The client test always records the handshake stage. -/
theorem testOpenSearchClient_stage (r : Except String Unit) :
    (testOpenSearchClient r).stage = .handshake := by
  cases r <;> rfl

/-- The index test always records the resource stage. -/
theorem testIndexExists_stage (r : Except String Bool) :
    (testIndexExists r).stage = .resource := by
  cases r <;> rfl

/-! ### Claim C1 -/

/-- Claim C1 counterexample: a raw failure matching the DNS-resolution
marker whose message also contains the timeout marker is classified
`TimedOut`, not `DnsFailure` — in the source cascade the timeout branch
is tested first, so the DNS rule is not the earliest rule. -/
theorem classify_dns_first_counterexample :
    includes "getaddrinfo ENOTFOUND search.example.com after timeout" "ENOTFOUND" = true ∧
    classify "getaddrinfo ENOTFOUND search.example.com after timeout" = .TimedOut ∧
    FaultCategory.TimedOut ≠ FaultCategory.DnsFailure := by
  refine ⟨by decide, by decide, by decide⟩

/-- Claim C1 (amended): `classify` applies its rules in the fixed source
order timeout, 403, DNS-marker, with first match winning: it returns
`TimedOut` exactly for messages containing the timeout marker,
`AuthorizationFailure` exactly for messages containing 403 but not the
timeout marker, `DnsFailure` exactly for messages containing the DNS
marker and matching neither earlier rule (so a DNS-marker message also
containing 404 still classifies as `DnsFailure`, there being no 404 rule),
and `Unknown` only for messages matching no rule. -/
theorem classify_rule_order (msg : String) :
    (classify msg = .TimedOut ↔ includes msg "timeout" = true) ∧
    (classify msg = .AuthorizationFailure ↔
      (includes msg "timeout" = false ∧ includes msg "403" = true)) ∧
    (classify msg = .DnsFailure ↔
      (includes msg "timeout" = false ∧ includes msg "403" = false ∧
        includes msg "ENOTFOUND" = true)) ∧
    (classify msg = .Unknown ↔
      (includes msg "timeout" = false ∧ includes msg "403" = false ∧
        includes msg "ENOTFOUND" = false)) := by
  unfold classify
  cases h1 : includes msg "timeout" <;> cases h2 : includes msg "403" <;>
    cases h3 : includes msg "ENOTFOUND" <;> simp

/-- Claim C1 witness: a plain DNS-marker failure classifies as
`DnsFailure`. -/
theorem classify_rule_order_witness :
    classify "getaddrinfo ENOTFOUND search.example.com" = .DnsFailure :=
  (classify_rule_order "getaddrinfo ENOTFOUND search.example.com").2.2.1.mpr
    ⟨by decide, by decide, by decide⟩

/-! ### Claim C2 -/

/-- Claim C2 counterexample: a run whose handshake stage raises a 403
error still executes the resource stage — `testOpenSearchClient` catches
its own error and `runDiagnostics` calls `testIndexExists` regardless. -/
theorem handshake_failure_blocking_counterexample :
    (testOpenSearchClient worldHandshake403.infoResult).outcome ≠ .success ∧
    Stage.resource ∈ executedStages envFull worldHandshake403 := by
  refine ⟨by decide, by decide⟩

/-- Claim C2 (amended): a handshake failure is not blocking — every run
that passes the configuration and DNS stages executes all five stages,
the resource stage included, whatever the handshake outcome; the
handshake finding records the classified category of the raised error. -/
theorem handshake_failure_nonblocking (env : Env) (w : World)
    (ep : String) (addrs : List String) (m : String)
    (he : env.OPENSEARCH_ENDPOINT = some ep)
    (hd : w.dnsResult = .ok addrs)
    (hf : w.infoResult = .error m) :
    executedStages env w = [.config, .dnsStage, .transport, .handshake, .resource] ∧
    testOpenSearchClient w.infoResult =
      { stage := .handshake, outcome := .failure (classify m) } := by
  constructor
  · unfold executedStages runDiagnostics
    rw [he, hd]
    simp [testBasicConnectivity_stage, testOpenSearchClient_stage, testIndexExists_stage]
  · rw [hf]
    rfl

/-- Claim C2 witness: the amended statement at a concrete 403 run. -/
theorem handshake_failure_nonblocking_witness :
    executedStages envFull worldHandshake403 =
      [.config, .dnsStage, .transport, .handshake, .resource] :=
  (handshake_failure_nonblocking envFull worldHandshake403
    "https://search-mydomain.us-east-1.es.amazonaws.com" ["10.0.0.2"]
    "Response Error: 403 security token invalid" rfl rfl rfl).1

/-! ### Claim C3 -/

/-- Claim C3 counterexample: a run whose transport probe times out still
executes the handshake and resource stages — `testBasicConnectivity`
resolves on the timeout event and `runDiagnostics` continues. -/
theorem transport_timeout_blocking_counterexample :
    testBasicConnectivity worldTransportTimeout.transportEvent =
      { stage := .transport, outcome := .failure .TimedOut } ∧
    Stage.handshake ∈ executedStages envFull worldTransportTimeout ∧
    Stage.resource ∈ executedStages envFull worldTransportTimeout := by
  refine ⟨by decide, by decide, by decide⟩

/-- Claim C3 (amended): a transport timeout or connection failure is
recorded in the transport finding but is not blocking: the handshake and
resource stages still execute. Only a missing endpoint or a DNS failure
halts the sequence. -/
theorem transport_failure_nonblocking (env : Env) (w : World)
    (ep : String) (addrs : List String)
    (he : env.OPENSEARCH_ENDPOINT = some ep)
    (hd : w.dnsResult = .ok addrs)
    (hf : w.transportEvent = .timeout ∨ ∃ m, w.transportEvent = .connError m) :
    (testBasicConnectivity w.transportEvent).outcome ≠ .success ∧
    Stage.handshake ∈ executedStages env w ∧
    Stage.resource ∈ executedStages env w := by
  refine ⟨?_, ?_, ?_⟩
  · rcases hf with h | ⟨m, h⟩ <;> rw [h] <;> simp [testBasicConnectivity]
  · unfold executedStages runDiagnostics
    rw [he, hd]
    simp [testBasicConnectivity_stage, testOpenSearchClient_stage, testIndexExists_stage]
  · unfold executedStages runDiagnostics
    rw [he, hd]
    simp [testBasicConnectivity_stage, testOpenSearchClient_stage, testIndexExists_stage]

/-- Claim C3 witness: the amended statement at a concrete timed-out run. -/
theorem transport_failure_nonblocking_witness :
    (testBasicConnectivity worldTransportTimeout.transportEvent).outcome ≠ .success ∧
    Stage.handshake ∈ executedStages envFull worldTransportTimeout :=
  ⟨(transport_failure_nonblocking envFull worldTransportTimeout
      "https://search-mydomain.us-east-1.es.amazonaws.com" ["10.0.0.2"]
      rfl rfl (Or.inl rfl)).1,
   (transport_failure_nonblocking envFull worldTransportTimeout
      "https://search-mydomain.us-east-1.es.amazonaws.com" ["10.0.0.2"]
      rfl rfl (Or.inl rfl)).2.1⟩

/-! ### Claim C4 -/

/-- Claim C4 counterexample: a run with the endpoint set but both
credential variables unset is not blocked at the configuration stage —
the report has five findings and the DNS stage (hence the facade-backed
stages) executes. -/
theorem config_credentials_counterexample :
    envNoCreds.AWS_ACCESS_KEY_ID = none ∧
    envNoCreds.AWS_SECRET_ACCESS_KEY = none ∧
    (runDiagnostics envNoCreds worldAllOk).length = 5 ∧
    Stage.dnsStage ∈ executedStages envNoCreds worldAllOk := by
  refine ⟨rfl, rfl, by decide, by decide⟩

/-- Claim C4 (amended): the configuration stage blocks only on an absent
endpoint: when the endpoint variable is unset the report is exactly one
finding with category `Unconfigured` and no later stage executes; absent
credential material is printed but does not block, so the run proceeds to
the remaining stages. -/
theorem config_stage_blocking (env : Env) (w : World) :
    (env.OPENSEARCH_ENDPOINT = none →
      runDiagnostics env w = [{ stage := .config, outcome := .failure .Unconfigured }] ∧
      executedStages env w = [.config]) ∧
    (∀ ep addrs, env.OPENSEARCH_ENDPOINT = some ep → w.dnsResult = .ok addrs →
      env.AWS_ACCESS_KEY_ID = none → env.AWS_SECRET_ACCESS_KEY = none →
      (runDiagnostics env w).length = 5) := by
  constructor
  · intro he
    unfold executedStages runDiagnostics
    rw [he]
    exact ⟨rfl, rfl⟩
  · intro ep addrs he hd _ _
    unfold runDiagnostics
    rw [he, hd]
    rfl

/-- Claim C4 witness: the amended statement at a concrete endpoint-less
environment and at a concrete credential-less environment. -/
theorem config_stage_blocking_witness :
    executedStages envNoEndpoint worldAllOk = [.config] ∧
    (runDiagnostics envNoCreds worldAllOk).length = 5 :=
  ⟨((config_stage_blocking envNoEndpoint worldAllOk).1 rfl).2,
   (config_stage_blocking envNoCreds worldAllOk).2
     "https://search-mydomain.us-east-1.es.amazonaws.com" ["10.0.0.2"]
     rfl rfl rfl rfl⟩

/-! ### Claim C5 -/

/-- Claim C5: the transport probe uses a bounded 10000 ms wait, records
stage success for any response received whatever its status code, and
fails exactly on the timeout event or a connection-level error. -/
theorem transport_stage_semantics :
    transportTimeoutMs = 10000 ∧
    (∀ s : Nat, (testBasicConnectivity (.response s)).outcome = .success) ∧
    (∀ e : TransportEvent, (testBasicConnectivity e).outcome ≠ .success ↔
      (e = .timeout ∨ ∃ m, e = .connError m)) := by
  refine ⟨rfl, fun s => rfl, fun e => ?_⟩
  cases e <;> simp [testBasicConnectivity]

/-- Claim C5 witness: a 503 response is stage success; a timeout is not. -/
theorem transport_stage_semantics_witness :
    (testBasicConnectivity (.response 503)).outcome = .success ∧
    (testBasicConnectivity .timeout).outcome ≠ .success :=
  ⟨transport_stage_semantics.2.1 503,
   (transport_stage_semantics.2.2 .timeout).mpr (Or.inl rfl)⟩

/-! ### Claim C6 -/

/-- Claim C6 counterexample: a pure timeout failure on
GET /search/real-opensearch is classified `TimedOut` — a member of the
claimed category set — yet the handler sets networkIssue to false,
flagging the timeout through the separate timeoutIssue field. -/
theorem networkIssue_counterexample :
    classifySpec { message := "Request timed out", statusCode := none } = .TimedOut ∧
    (realOpensearchHandler "mydomain" (.ok true)
        (.error "Request timed out")).1.searchTroubleshooting.map
      SearchTroubleshooting.networkIssue = some false ∧
    (realOpensearchHandler "mydomain" (.ok true)
        (.error "Request timed out")).1.searchTroubleshooting.map
      SearchTroubleshooting.timeoutIssue = some true := by
  refine ⟨by decide, by decide, by decide⟩

/-- Claim C6 (amended): on GET /search/real-opensearch the networkIssue
flag is true exactly when the classified category is `DnsFailure` or
`NetworkUnreachable`; a `TimedOut` failure raises the separate
timeoutIssue flag instead. (GET /test-connection folds timeout and DNS
markers, not the refused marker, into its own networkIssue flag.) -/
theorem networkIssue_iff_dns_or_unreachable (e : RawError) :
    (realOpensearchTroubleshooting e.message).networkIssue = true ↔
      (classifySpec e = .DnsFailure ∨ classifySpec e = .NetworkUnreachable) := by
  unfold realOpensearchTroubleshooting classifySpec
  cases h1 : includes e.message "ENOTFOUND" <;>
    cases h2 : includes e.message "ECONNREFUSED" <;>
      (simp; try (split_ifs <;> simp))

/-- Claim C6 witness: a connection-refused failure sets networkIssue. -/
theorem networkIssue_iff_witness :
    (realOpensearchTroubleshooting "connect ECONNREFUSED 10.0.0.2:443").networkIssue = true :=
  (networkIssue_iff_dns_or_unreachable
      { message := "connect ECONNREFUSED 10.0.0.2:443", statusCode := none }).mpr
    (Or.inr (by decide))

/-! ### Claim C7 -/

/-- Claim C7 counterexample: the GET /health response body carries only
the fixed status field — it has no success boolean at all. -/
theorem health_success_counterexample :
    healthHandler.success = none ∧ healthHandler.statusField = some "healthy" := by
  refine ⟨rfl, rfl⟩

/-- Claim C7 (amended): every route except GET /health returns a body
with an explicit success boolean — true on the success path and false on
every caught-error path (each handler catches every raised fault, so no
request propagates one); GET /health returns its fixed healthy body with
no success key. -/
theorem gateway_success_flag :
    healthHandler.success = none ∧
    (∀ r : Except String Unit, (testConnectionHandler r).success = some (exceptOk r)) ∧
    (∀ r : Except String String, (sendHandler r).success = some (exceptOk r)) ∧
    (∀ r : Except String String, (sendPipeDataHandler r).success = some (exceptOk r)) ∧
    (∀ r : Except String Unit, (searchAllHandler r).success = some (exceptOk r)) ∧
    (∀ r : Except String Unit, (searchPipeDataHandler r).success = some (exceptOk r)) ∧
    (∀ idx er sr,
      ((realOpensearchHandler idx er sr).1.success = some true ↔
        (er = .ok true ∧ sr = .ok ())) ∧
      ((realOpensearchHandler idx er sr).1.success = some false ↔
        ¬(er = .ok true ∧ sr = .ok ()))) := by
  refine ⟨rfl, fun r => by cases r <;> rfl, fun r => by cases r <;> rfl,
    fun r => by cases r <;> rfl, fun r => by cases r <;> rfl,
    fun r => by cases r <;> rfl, fun idx er sr => ?_⟩
  cases er with
  | error m => simp [realOpensearchHandler]
  | ok b =>
    cases b with
    | false => simp [realOpensearchHandler]
    | true =>
      cases sr with
      | error m => simp [realOpensearchHandler]
      | ok u => cases u; simp [realOpensearchHandler]

/-- Claim C7 witness: a failed search gets success false; a successful
real-opensearch run gets success true. -/
theorem gateway_success_flag_witness :
    (searchAllHandler (.error "Response Error")).success = some false ∧
    (realOpensearchHandler "mydomain" (.ok true) (.ok ())).1.success = some true :=
  ⟨by rw [gateway_success_flag.2.2.2.2.1 (.error "Response Error")]; rfl,
   ((gateway_success_flag.2.2.2.2.2.2 "mydomain" (.ok true) (.ok ())).1).mpr ⟨rfl, rfl⟩⟩

/-! ### Claim C8 -/

/-- Claim C8: when the index-existence check returns false the
real-opensearch handler answers 404 with success false and a suggestion
and never issues the search; the search call is issued exactly when the
existence check returns true. -/
theorem real_opensearch_missing_index (idx : String)
    (er : Except String Bool) (sr : Except String Unit) :
    (er = .ok false →
      (realOpensearchHandler idx er sr).1.status = 404 ∧
      (realOpensearchHandler idx er sr).1.success = some false ∧
      (realOpensearchHandler idx er sr).1.suggestion.isSome = true ∧
      (realOpensearchHandler idx er sr).2 = false) ∧
    ((realOpensearchHandler idx er sr).2 = true ↔ er = .ok true) := by
  constructor
  · rintro rfl
    exact ⟨rfl, rfl, rfl, rfl⟩
  · cases er with
    | error m => simp [realOpensearchHandler]
    | ok b =>
      cases b with
      | false => simp [realOpensearchHandler]
      | true => cases sr <;> simp [realOpensearchHandler]

/-- Claim C8 witness: the statement at a concrete missing-index request. -/
theorem real_opensearch_missing_index_witness :
    (realOpensearchHandler "mydomain" (.ok false) (.ok ())).1.status = 404 ∧
    (realOpensearchHandler "mydomain" (.ok false) (.ok ())).2 = false :=
  ⟨((real_opensearch_missing_index "mydomain" (.ok false) (.ok ())).1 rfl).1,
   ((real_opensearch_missing_index "mydomain" (.ok false) (.ok ())).1 rfl).2.2.2⟩

/-! ### Claim C9 -/

/-- Claim C9: a size query parameter that is absent, parses to NaN, or
parses to 0 is replaced by the default 10, and a from parameter in the
same cases is replaced by the default 0, in the values the search routes
put into the query they send. -/
theorem size_from_defaults (q : Option String) :
    (q = none → sizeParam q = 10 ∧ fromParam q = 0) ∧
    (∀ s, q = some s → parseIntJS s = none → sizeParam q = 10 ∧ fromParam q = 0) ∧
    (∀ s, q = some s → parseIntJS s = some 0 → sizeParam q = 10 ∧ fromParam q = 0) := by
  refine ⟨?_, ?_, ?_⟩
  · rintro rfl
    exact ⟨rfl, rfl⟩
  · rintro s rfl h
    constructor <;> simp [sizeParam, fromParam, h]
  · rintro s rfl h
    constructor <;> simp [sizeParam, fromParam, h]

/-- Claim C9 witness: the statement at a non-numeric and at a zero
parameter. -/
theorem size_from_defaults_witness :
    parseIntJS "abc" = none ∧ sizeParam (some "abc") = 10 ∧
    parseIntJS "0" = some 0 ∧ sizeParam (some "0") = 10 ∧ fromParam (some "0") = 0 :=
  ⟨by decide,
   ((size_from_defaults (some "abc")).2.1 "abc" rfl (by decide)).1,
   by decide,
   ((size_from_defaults (some "0")).2.2 "0" rfl (by decide)).1,
   ((size_from_defaults (some "0")).2.2 "0" rfl (by decide)).2⟩

/-! ### Claim C10 -/

/-- Claim C10: the record sent to the ingestion stream by POST /send and
POST /send-pipe-data carries server-set timestamp and @timestamp fields
(the two toISOString calls), overriding any same-named fields of the
request body, and passes every other body field through unchanged. -/
theorem send_record_timestamps (data : JsObj) (now1 now2 : String) (k : String)
    (hk1 : k ≠ "timestamp") (hk2 : k ≠ "@timestamp") :
    buildRecord data now1 now2 "timestamp" = some (.str now1) ∧
    buildRecord data now1 now2 "@timestamp" = some (.str now2) ∧
    buildRecord data now1 now2 k = data k ∧
    sendPipeDataRecord (some data) now1 now2 k = data k := by
  unfold sendPipeDataRecord buildRecord jsSet
  refine ⟨?_, ?_, ?_, ?_⟩
  · rw [if_neg (by decide : ¬ ("timestamp" : String) = "@timestamp"), if_pos rfl]
  · rw [if_pos rfl]
  · rw [if_neg hk2, if_neg hk1]
  · rw [if_neg hk2, if_neg hk1]

/-- Claim C10 witness: the statement at the default pipe body and a
non-timestamp key. -/
theorem send_record_timestamps_witness :
    buildRecord defaultPipeData "2025-01-01T00:00:00.000Z" "2025-01-01T00:00:00.001Z"
      "timestamp" = some (.str "2025-01-01T00:00:00.000Z") ∧
    buildRecord defaultPipeData "2025-01-01T00:00:00.000Z" "2025-01-01T00:00:00.001Z"
      "pipe-20" = some (.num 112) := by
  have h := send_record_timestamps defaultPipeData "2025-01-01T00:00:00.000Z"
    "2025-01-01T00:00:00.001Z" "pipe-20" (by decide) (by decide)
  exact ⟨h.1, by rw [h.2.2.1]; rfl⟩

end Testec2
